import Mathlib

/-!
Verification of `JetNetFinalEvaluationCallback`
(`src/callbacks/jetnet_final_eval.py`).

The callback is shallowly embedded: its configuration and the mutable
attributes it stores on `self` become the structure `CBState`; the pieces of
the Lightning trainer it consumes become `TrainerStart` / `EndEnv`; the
file-writing and logging side effects of `on_test_end` become an explicit
trace of `Effect`s; Python exceptions become the `Err` type.  Numeric metric
values are modelled symbolically by `MVal` (a Python type tag together with a
possibly non-finite numeric value), since only type coercion and finiteness
matter to the properties proved here.
-/

/-- Python exceptions that the embedded code can raise. -/
inductive Err
  | valueError
  | indexError
  | nameError
  | attributeError
  | externalError
  deriving DecidableEq, Repr

/-- Symbolic value of a floating-point scalar: a finite value (abstracted to
an integer label), NaN, or a signed infinity.  `float(v)` in Python preserves
this value exactly, including the non-finite cases. -/
inductive NumVal
  | num (v : Int)
  | nan
  | posInf
  | negInf
  deriving DecidableEq, Repr

/-- Python-level numeric type of a metric value: `numpy.float64` as produced
by the Wasserstein routines, or plain `float` after coercion. -/
inductive PyNumTag
  | npFloat64
  | pyFloat
  deriving DecidableEq, Repr

/-- A metric value: its Python type together with its numeric value. -/
structure MVal where
  tag : PyNumTag
  val : NumVal
  deriving DecidableEq, Repr

/-- `float(v)`: changes the Python type to plain `float`, preserving the
numeric value (also when it is NaN or an infinity). -/
def pyFloatOf (v : MVal) : MVal :=
  { tag := PyNumTag.pyFloat, val := v.val }

/-- Whether a metric value is a finite number. -/
def MVal.isFiniteVal : MVal → Bool
  | { tag := _, val := NumVal.num _ } => true
  | _ => false

/-- A checkpoint callback as seen by `_get_checkpoint`: whether its exact type
is `EMAModelCheckpoint`, plus the four path attributes the code reads. -/
structure CkptCB where
  isEMAModelCheckpoint : Bool
  last_model_path : String
  best_model_path : String
  last_model_path_ema : String
  best_model_path_ema : String
  deriving DecidableEq, Repr

/-- The callback object's attributes: the constructor arguments stored in
`__init__` plus `datasets_multiplier` (absent, i.e. `none`, until
`on_test_start` first assigns it) and the two cached logger references
(modelled by whether a logger is cached). -/
structure CBState where
  use_ema : Bool
  dataset : String
  nr_checkpoint_callbacks : Nat
  use_last_checkpoint : Bool
  ckpt_path : Option String
  num_jet_samples : Int
  fix_seed : Bool
  evaluate_substructure : Bool
  suffix : String
  cond_path : Option String
  datasets_multiplier : Option Int
  comet_logger : Bool
  wandb_logger : Bool
  deriving DecidableEq, Repr

/-- What `on_test_start` reads from the trainer: the sizes of the test and
validation tensors and which logger backends are present. -/
structure TrainerStart where
  lenTest : Nat
  lenVal : Nat
  hasComet : Bool
  hasWandb : Bool
  deriving DecidableEq, Repr

/-- `on_test_start` (lines 99-125): resolve a negative `num_jet_samples` into
`len(split) * abs(num_jet_samples)` and record the multiplier, disable the
multiplier for non-negative counts and whenever `cond_path` is set, and cache
whichever logger backends are present. -/
def onTestStart (st : CBState) (tr : TrainerStart) : CBState :=
  let st1 :=
    if st.num_jet_samples < 0 then
      { st with
        datasets_multiplier := some (st.num_jet_samples.natAbs : Int)
        num_jet_samples :=
          if st.dataset = "test" then
            ((tr.lenTest * st.num_jet_samples.natAbs : Nat) : Int)
          else if st.dataset = "val" then
            ((tr.lenVal * st.num_jet_samples.natAbs : Nat) : Int)
          else st.num_jet_samples }
    else { st with datasets_multiplier := some (-1) }
  let st2 :=
    if st1.cond_path.isSome then { st1 with datasets_multiplier := some (-1) }
    else st1
  { st2 with
    comet_logger := if tr.hasComet then true else st2.comet_logger
    wandb_logger := if tr.hasWandb then true else st2.wandb_logger }

/-- Length of the chosen dataset split (`tensor_test` / `tensor_val`). -/
def lenSplit (dataset : String) (tr : TrainerStart) : Nat :=
  if dataset = "test" then tr.lenTest else tr.lenVal

/-- `_get_checkpoint` (lines 404-435): an explicit `ckpt_path` is returned
verbatim; otherwise the checkpoint callback at the configured index is used,
raising `ValueError` when EMA weights are requested from a callback whose
type is not `EMAModelCheckpoint` (an out-of-range index raises `IndexError`
at the subscript itself). -/
def getCheckpoint (ckpt_path : Option String) (use_ema : Bool) (idx : Nat)
    (use_last_checkpoint : Bool) (cbs : List CkptCB) : Except Err String :=
  match ckpt_path with
  | some p => Except.ok p
  | none =>
    match cbs[idx]? with
    | none => Except.error Err.indexError
    | some cb =>
      if use_ema then
        if cb.isEMAModelCheckpoint then
          if use_last_checkpoint then Except.ok cb.last_model_path_ema
          else Except.ok cb.best_model_path_ema
        else Except.error Err.valueError
      else
        if use_last_checkpoint then Except.ok cb.last_model_path
        else Except.ok cb.best_model_path

/-- `n if n <= jet_size else jet_size` (lines 155-157): clip a multiplicity
to the configured maximum jet size. -/
def clipMult (jetSize : Nat) (n : Int) : Int :=
  if n ≤ (jetSize : Int) then n else (jetSize : Int)

/-- Numpy row indexing into an array with `nRows` rows: non-negative indices
must be below `nRows`, negative indices count from the end, anything else is
an `IndexError` (`none`). -/
def npRowIndex (nRows : Nat) (i : Int) : Option Nat :=
  if 0 ≤ i then
    if i < (nRows : Int) then some i.toNat else none
  else
    if -(nRows : Int) ≤ i then some ((nRows : Int) + i).toNat else none

/-- Row `i` of `np.tri(n)`: ones in columns `0..i`, zeros beyond. -/
def triRow (n : Nat) (i : Nat) : List Bool :=
  (List.range n).map (fun j => decide (j ≤ i))

/-- Number of active (one) entries of a mask row. -/
def activeCount (row : List Bool) : Nat :=
  (row.filter (fun b => b)).length

/-- The per-jet mask row built at lines 159-161:
`np.tri(jet_size)[clipped_multiplicity - 1]`, with numpy index semantics. -/
def maskRow (jetSize : Nat) (mult : Int) : Option (List Bool) :=
  (npRowIndex jetSize (clipMult jetSize mult - 1)).map (triRow jetSize)

/-- The whole validity mask built from the conditioning file's
multiplicities; `none` when some row index is out of range. -/
def condMasks (jetSize : Nat) (mults : List Int) : Option (List (List Bool)) :=
  mults.mapM (fun n => maskRow jetSize n)

/-- The side effects of `on_test_end` that write files or push to the two
experiment-tracking backends, in the order the code performs them. -/
inductive Effect
  | saveGeneratedData (path : String)
  | savePlot (folder : String) (name : String)
  | dumpSubstructure (path : String)
  | savePlotSubstructure (folder : String) (name : String)
  | savePlotFullSubstructure (folder : String) (name : String)
  | writeYaml (path : String) (metrics : List (String × MVal))
  | logCometImage (path : String) (name : String)
  | logWandbImage (name : String) (path : String)
  | logCometMetrics (metrics : List (String × MVal))
  | logWandbMetrics (metrics : List (String × MVal))
  deriving DecidableEq, Repr

/-- Whether an effect creates a substructure artifact: one of the two
intermediate keyed files or the two substructure plots. -/
def Effect.isSubstructureOutput : Effect → Bool
  | Effect.dumpSubstructure _ => true
  | Effect.savePlotSubstructure _ _ => true
  | Effect.savePlotFullSubstructure _ _ => true
  | _ => false

/-- What `on_test_end` reads from the trainer, the conditioning file and the
external numeric routines: the checkpoint callback list, dataset sizes, the
maximum jet size, the multiplicities stored in the conditioning file, the
mapping returned by `calculate_all_wasserstein_metrics`, whether each of the
two `dump_hlvs` calls succeeds, and the three `(mean, std)` pairs returned by
`wasserstein_distance_batched` for the substructure observables. -/
structure EndEnv where
  checkpoint_callbacks : List CkptCB
  lenTest : Nat
  lenVal : Nat
  jet_size : Nat
  condFileMults : List Int
  wMetrics : List (String × MVal)
  dumpOk1 : Bool
  dumpOk2 : Bool
  w_tau21 : MVal × MVal
  w_tau32 : MVal × MVal
  w_d2 : MVal × MVal
  deriving DecidableEq, Repr

/-- Python `"/".join(s.split("/"))` building block: split a character list at
every slash (every list in the result is one field, empty fields included). -/
def splitOnSlash : List Char → List (List Char)
  | [] => [[]]
  | c :: rest =>
    let r := splitOnSlash rest
    if c = '/' then [] :: r
    else
      match r with
      | [] => [[c]]
      | h :: t => (c :: h) :: t

/-- `"/".join(ckpt.split("/")[:-2]) + "/"` (lines 215, 255, 276, 283, 381):
the output directory derived from the checkpoint path. -/
def ckptDir (ckpt : String) : String :=
  String.mk (List.intercalate [Char.ofNat 47] ((splitOnSlash ckpt.data).dropLast.dropLast)) ++ "/"

/-- Python dict assignment `m[k] = v` on an association list with unique
keys: overwrite the existing binding, or append a new one. -/
def dictInsert (m : List (String × MVal)) (k : String) (v : MVal) :
    List (String × MVal) :=
  if m.any (fun p => p.1 = k) then
    m.map (fun p => if p.1 = k then (k, v) else p)
  else m ++ [(k, v)]

/-- `metrics = {k: float(v) for k, v in metrics.items()}` (line 385). -/
def coerceMetrics (m : List (String × MVal)) : List (String × MVal) :=
  m.map (fun p => (p.1, pyFloatOf p.2))

/-- `metrics_final[key + f"_final{suffix}"] = value` (lines 391-393). -/
def rekeyFinal (suffix : String) (m : List (String × MVal)) :
    List (String × MVal) :=
  m.map (fun p => (p.1 ++ "_final" ++ suffix, p.2))

/-- The six substructure Wasserstein distances added to the metrics dict
(lines 326-332). -/
def subMetrics (env : EndEnv) : List (String × MVal) :=
  let m1 := dictInsert env.wMetrics "w_dist_tau21_mean" env.w_tau21.1
  let m2 := dictInsert m1 "w_dist_tau21_std" env.w_tau21.2
  let m3 := dictInsert m2 "w_dist_tau32_mean" env.w_tau32.1
  let m4 := dictInsert m3 "w_dist_tau32_std" env.w_tau32.2
  let m5 := dictInsert m4 "w_dist_d2_mean" env.w_d2.1
  dictInsert m5 "w_dist_d2_std" env.w_d2.2

/-- Substructure image logging (lines 359-379), one entry per cached
backend. -/
def subLogEffects (st : CBState) (dir : String) : List Effect :=
  (if st.comet_logger then
    [Effect.logCometImage (dir ++ "substructure_3plots" ++ st.suffix ++ ".png")
      ("A_final_substructure" ++ st.suffix),
     Effect.logCometImage (dir ++ "substructure_full" ++ st.suffix ++ ".png")
      ("A_final_substructure_full" ++ st.suffix)]
  else []) ++
  (if st.wandb_logger then
    [Effect.logWandbImage ("A_final_substructure" ++ st.suffix)
      (dir ++ "substructure_3plots" ++ st.suffix ++ ".png"),
     Effect.logWandbImage ("A_final_substructure_full" ++ st.suffix)
      (dir ++ "substructure_full" ++ st.suffix ++ ".png")]
  else [])

/-- Final metric/image logging (lines 395-402), one entry per cached
backend. -/
def finalLogEffects (st : CBState) (dir : String)
    (metricsFinal : List (String × MVal)) : List Effect :=
  (if st.comet_logger then
    [Effect.logCometImage (dir ++ "final_plot" ++ st.suffix ++ ".png")
      ("A_final_plot" ++ st.suffix),
     Effect.logCometMetrics metricsFinal]
  else []) ++
  (if st.wandb_logger then
    [Effect.logWandbImage ("A_final_plot" ++ st.suffix)
      (dir ++ "final_plot" ++ st.suffix ++ ".png"),
     Effect.logWandbMetrics metricsFinal]
  else [])

/-- Whether the conditioning block (lines 147-161) completes: either there is
no `cond_path`, or every mask row index is in range. -/
def condBlockOk (st : CBState) (env : EndEnv) : Bool :=
  match st.cond_path with
  | none => true
  | some _ => (condMasks env.jet_size env.condFileMults).isSome

/-- Saving the generated data (line 218) and the primary comparison plot
(lines 256-273), the two write effects preceding the substructure branch. -/
def preEffects (st : CBState) (dir : String) : List Effect :=
  [Effect.saveGeneratedData (dir ++ "final_generated_data" ++ st.suffix ++ ".npy"),
   Effect.savePlot dir ("final_plot" ++ st.suffix)]

/-- The full effect trace when the substructure branch runs to completion:
two `dump_hlvs` files, two substructure plots, substructure image logging,
the metrics yaml write, and the final logging. -/
def subTrace (st : CBState) (env : EndEnv) (dir : String) : List Effect :=
  preEffects st dir ++
    [Effect.dumpSubstructure (dir ++ "substructure" ++ st.suffix),
     Effect.dumpSubstructure (dir ++ "substructure_jetnet" ++ st.suffix),
     Effect.savePlotSubstructure dir ("substructure_3plots" ++ st.suffix),
     Effect.savePlotFullSubstructure dir ("substructure_full" ++ st.suffix)] ++
    subLogEffects st dir ++
    [Effect.writeYaml (dir ++ "final_eval_metrics" ++ st.suffix ++ ".yml")
      (coerceMetrics (subMetrics env))] ++
    finalLogEffects st dir (rekeyFinal st.suffix (coerceMetrics (subMetrics env)))

/-- The effect trace when `evaluate_substructure` is off: generated data,
primary plot, the metrics yaml write, and the final logging. -/
def noSubTrace (st : CBState) (env : EndEnv) (dir : String) : List Effect :=
  preEffects st dir ++
    [Effect.writeYaml (dir ++ "final_eval_metrics" ++ st.suffix ++ ".yml")
      (coerceMetrics env.wMetrics)] ++
    finalLogEffects st dir (rekeyFinal st.suffix (coerceMetrics env.wMetrics))

/-- The body of `on_test_end` after checkpoint resolution succeeded, as the
trace of its side effects paired with the exception it raises, if any.
Mirrors lines 139-402: conditioning mask construction, background split
lookup (a dataset other than `"test"`/`"val"` leaves `background_data`
unassigned and raises `NameError` at first use), the
`self.datasets_multiplier` attribute read (raising `AttributeError` when
`on_test_start` never ran), saving the generated data, the primary plot, and
then either the substructure branch (whose two `dump_hlvs` calls may raise)
followed by the yaml write and logging, or the yaml write and logging
directly. -/
def onTestEndOk (st : CBState) (env : EndEnv) (ckpt : String) :
    List Effect × Option Err :=
  if !condBlockOk st env then ([], some Err.indexError)
  else if !(st.dataset = "test" || st.dataset = "val") then
    ([], some Err.nameError)
  else
    match st.datasets_multiplier with
    | none => ([], some Err.attributeError)
    | some _ =>
      if st.evaluate_substructure then
        if !env.dumpOk1 then (preEffects st (ckptDir ckpt), some Err.externalError)
        else if !env.dumpOk2 then
          (preEffects st (ckptDir ckpt) ++
            [Effect.dumpSubstructure (ckptDir ckpt ++ "substructure" ++ st.suffix)],
           some Err.externalError)
        else (subTrace st env (ckptDir ckpt), none)
      else (noSubTrace st env (ckptDir ckpt), none)

/-- `on_test_end` (lines 134-402): checkpoint resolution first; when it
raises, nothing else happens, otherwise the rest of the sequence runs. -/
def onTestEnd (st : CBState) (env : EndEnv) : List Effect × Option Err :=
  match getCheckpoint st.ckpt_path st.use_ema st.nr_checkpoint_callbacks
      st.use_last_checkpoint env.checkpoint_callbacks with
  | Except.error e => ([], some e)
  | Except.ok ckpt => onTestEndOk st env ckpt

/-- Whether an effect is a push to one of the two logging backends. -/
def Effect.isBackendLog : Effect → Bool
  | Effect.logCometImage _ _ => true
  | Effect.logWandbImage _ _ => true
  | Effect.logCometMetrics _ => true
  | Effect.logWandbMetrics _ => true
  | _ => false

/-- A plain (non-EMA) checkpoint callback used as concrete input. -/
def cbPlain : CkptCB :=
  { isEMAModelCheckpoint := false
    last_model_path := "logs/run/checkpoints/last.ckpt"
    best_model_path := "logs/run/checkpoints/best.ckpt"
    last_model_path_ema := ""
    best_model_path_ema := "" }

/-- A default callback state for concrete runs: defaults of `__init__`
except where a scenario overrides them, with `datasets_multiplier` already
resolved to the disabled sentinel as after a start-hook run. -/
def stBase : CBState :=
  { use_ema := false
    dataset := "test"
    nr_checkpoint_callbacks := 0
    use_last_checkpoint := true
    ckpt_path := some "logs/run/checkpoints/last.ckpt"
    num_jet_samples := 100
    fix_seed := true
    evaluate_substructure := false
    suffix := ""
    cond_path := none
    datasets_multiplier := some (-1)
    comet_logger := false
    wandb_logger := false }

/-- A default end-hook environment for concrete runs. -/
def envBase : EndEnv :=
  { checkpoint_callbacks := [cbPlain]
    lenTest := 3
    lenVal := 4
    jet_size := 3
    condFileMults := []
    wMetrics := [("w1b_mean", { tag := PyNumTag.npFloat64, val := NumVal.num 1 })]
    dumpOk1 := true
    dumpOk2 := true
    w_tau21 := ({ tag := PyNumTag.npFloat64, val := NumVal.num 2 },
                { tag := PyNumTag.npFloat64, val := NumVal.num 3 })
    w_tau32 := ({ tag := PyNumTag.npFloat64, val := NumVal.num 4 },
                { tag := PyNumTag.npFloat64, val := NumVal.num 5 })
    w_d2 := ({ tag := PyNumTag.npFloat64, val := NumVal.num 6 },
             { tag := PyNumTag.npFloat64, val := NumVal.num 7 }) }

/-- Concrete state for the EMA-mismatch scenario: no explicit checkpoint
path, EMA requested. -/
def stEma : CBState :=
  { stBase with ckpt_path := none, use_ema := true }

/-- Concrete trainer snapshot for start-hook runs. -/
def trBase : TrainerStart :=
  { lenTest := 3, lenVal := 4, hasComet := false, hasWandb := false }

/-- Concrete state for start-hook runs: fresh from `__init__`
(`datasets_multiplier` not yet assigned), requesting one dataset pass. -/
def stStart : CBState :=
  { stBase with num_jet_samples := -2, datasets_multiplier := none }

/-- Concrete state with an external conditioning path and a negative sample
request. -/
def stCond : CBState :=
  { stBase with
    num_jet_samples := -2
    datasets_multiplier := none
    cond_path := some "cond.h5" }

/-- Concrete environment whose Wasserstein mapping contains a NaN value. -/
def envNan : EndEnv :=
  { envBase with
    wMetrics := [("w1b_mean", { tag := PyNumTag.npFloat64, val := NumVal.nan })] }

/-- Concrete state with the substructure branch enabled. -/
def stSub : CBState :=
  { stBase with evaluate_substructure := true }

/-- Concrete environment whose first `dump_hlvs` call raises. -/
def envDumpFail : EndEnv :=
  { envBase with dumpOk1 := false }

/-! ## Helper lemmas -/

theorem activeCount_triRow (n i : Nat) : activeCount (triRow n i) = min n (i + 1) := by
  induction n with
  | zero => simp [activeCount, triRow]
  | succ n ih =>
    unfold triRow activeCount at ih ⊢
    rw [List.range_succ, List.map_append, List.filter_append, List.length_append, ih]
    by_cases h : n ≤ i
    · have hone : (List.map (fun j => decide (j ≤ i)) [n]).filter (fun b => b) = [true] := by
        simp [h]
      rw [hone]
      simp only [List.length_cons, List.length_nil]
      omega
    · have hnil : (List.map (fun j => decide (j ≤ i)) [n]).filter (fun b => b) = [] := by
        simp [h]
      rw [hnil]
      simp only [List.length_nil]
      omega

theorem mem_subLogEffects_isBackendLog (st : CBState) (dir : String) :
    ∀ e ∈ subLogEffects st dir, e.isBackendLog = true := by
  intro e he
  unfold subLogEffects at he
  rcases List.mem_append.mp he with h | h <;> split_ifs at h <;> simp at h <;>
    rcases h with rfl | rfl <;> rfl

theorem mem_finalLogEffects_isBackendLog (st : CBState) (dir : String)
    (mf : List (String × MVal)) :
    ∀ e ∈ finalLogEffects st dir mf, e.isBackendLog = true := by
  intro e he
  unfold finalLogEffects at he
  rcases List.mem_append.mp he with h | h <;> split_ifs at h <;> simp at h <;>
    rcases h with rfl | rfl <;> rfl

theorem isBackendLog_not_substructure (e : Effect) (h : e.isBackendLog = true) :
    e.isSubstructureOutput = false := by
  cases e <;> simp [Effect.isBackendLog, Effect.isSubstructureOutput] at *

theorem isBackendLog_ne_writeYaml (e : Effect) (h : e.isBackendLog = true)
    (p : String) (m : List (String × MVal)) : e ≠ Effect.writeYaml p m := by
  intro heq
  subst heq
  simp [Effect.isBackendLog] at h

theorem coerceMetrics_keys (m : List (String × MVal)) :
    (coerceMetrics m).map Prod.fst = m.map Prod.fst := by
  unfold coerceMetrics
  rw [List.map_map]
  rfl

theorem mem_coerceMetrics_tag (m : List (String × MVal)) :
    ∀ q ∈ coerceMetrics m, q.2.tag = PyNumTag.pyFloat := by
  intro q hq
  unfold coerceMetrics at hq
  rw [List.mem_map] at hq
  obtain ⟨p, _, rfl⟩ := hq
  rfl

theorem dictInsert_keys (m : List (String × MVal)) (k : String) (v : MVal) :
    (dictInsert m k v).map Prod.fst =
      if m.any (fun p => p.1 = k) then m.map Prod.fst
      else m.map Prod.fst ++ [k] := by
  unfold dictInsert
  split_ifs
  · rw [List.map_map]
    congr 1
    funext p
    by_cases hp : p.1 = k
    · simp [hp]
    · simp [hp]
  · simp

theorem dictInsert_keys_nodup (m : List (String × MVal)) (k : String) (v : MVal)
    (h : (m.map Prod.fst).Nodup) : ((dictInsert m k v).map Prod.fst).Nodup := by
  rw [dictInsert_keys]
  split_ifs with hany
  · exact h
  · rw [List.nodup_append]
    refine ⟨h, List.nodup_singleton k, ?_⟩
    intro a ha hk
    rw [List.mem_singleton] at hk
    subst hk
    rw [List.mem_map] at ha
    obtain ⟨p, hp, hpa⟩ := ha
    rw [List.any_eq_true] at hany
    exact hany ⟨p, hp, by simp [hpa]⟩

theorem subMetrics_keys_nodup (env : EndEnv)
    (h : (env.wMetrics.map Prod.fst).Nodup) :
    ((subMetrics env).map Prod.fst).Nodup := by
  unfold subMetrics
  exact dictInsert_keys_nodup _ _ _ (dictInsert_keys_nodup _ _ _
    (dictInsert_keys_nodup _ _ _ (dictInsert_keys_nodup _ _ _
      (dictInsert_keys_nodup _ _ _ (dictInsert_keys_nodup _ _ _ h)))))

theorem noSubTrace_no_substructure (st : CBState) (env : EndEnv) (dir : String) :
    ∀ e ∈ noSubTrace st env dir, e.isSubstructureOutput = false := by
  intro e he
  unfold noSubTrace preEffects at he
  rcases List.mem_append.mp he with he | he
  · rcases List.mem_append.mp he with he | he
    · simp at he
      rcases he with rfl | rfl <;> rfl
    · simp at he
      subst he
      rfl
  · exact isBackendLog_not_substructure e (mem_finalLogEffects_isBackendLog st dir _ e he)

theorem writeYaml_mem_noSubTrace (st : CBState) (env : EndEnv) (dir : String)
    (p : String) (m : List (String × MVal))
    (h : Effect.writeYaml p m ∈ noSubTrace st env dir) :
    m = coerceMetrics env.wMetrics := by
  unfold noSubTrace preEffects at h
  rcases List.mem_append.mp h with h | h
  · rcases List.mem_append.mp h with h | h
    · simp at h
    · simp at h
      exact h.2
  · have hl := mem_finalLogEffects_isBackendLog st dir _ _ h
    simp [Effect.isBackendLog] at hl

theorem writeYaml_mem_subTrace (st : CBState) (env : EndEnv) (dir : String)
    (p : String) (m : List (String × MVal))
    (h : Effect.writeYaml p m ∈ subTrace st env dir) :
    m = coerceMetrics (subMetrics env) := by
  unfold subTrace preEffects at h
  rcases List.mem_append.mp h with h | h
  · rcases List.mem_append.mp h with h | h
    · rcases List.mem_append.mp h with h | h
      · rcases List.mem_append.mp h with h | h
        · simp at h
        · simp at h
      · have hl := mem_subLogEffects_isBackendLog st dir _ h
        simp [Effect.isBackendLog] at hl
    · simp at h
      exact h.2
  · have hl := mem_finalLogEffects_isBackendLog st dir _ _ h
    simp [Effect.isBackendLog] at hl

theorem onTestEnd_shape (st : CBState) (env : EndEnv) :
    (∃ err, onTestEnd st env = ([], some err)) ∨
    (∃ dir, onTestEnd st env = (preEffects st dir, some Err.externalError) ∧
      st.evaluate_substructure = true ∧ env.dumpOk1 = false) ∨
    (∃ dir, onTestEnd st env =
        (preEffects st dir ++
          [Effect.dumpSubstructure (dir ++ "substructure" ++ st.suffix)],
         some Err.externalError) ∧
      st.evaluate_substructure = true ∧ env.dumpOk2 = false) ∨
    (∃ dir, onTestEnd st env = (subTrace st env dir, none) ∧
      st.evaluate_substructure = true ∧ env.dumpOk1 = true ∧ env.dumpOk2 = true) ∨
    (∃ dir, onTestEnd st env = (noSubTrace st env dir, none) ∧
      st.evaluate_substructure = false) := by
  unfold onTestEnd
  cases hck : getCheckpoint st.ckpt_path st.use_ema st.nr_checkpoint_callbacks
      st.use_last_checkpoint env.checkpoint_callbacks with
  | error e => exact Or.inl ⟨e, rfl⟩
  | ok ckpt =>
    unfold onTestEndOk
    split_ifs with h1 h2 h3 h4 h5
    · exact Or.inl ⟨Err.indexError, rfl⟩
    · exact Or.inl ⟨Err.nameError, rfl⟩
    · cases hm : st.datasets_multiplier with
      | none => exact Or.inl ⟨Err.attributeError, rfl⟩
      | some mv =>
        refine Or.inr (Or.inl ⟨ckptDir ckpt, rfl, h3, ?_⟩)
        simpa using h4
    · cases hm : st.datasets_multiplier with
      | none => exact Or.inl ⟨Err.attributeError, rfl⟩
      | some mv =>
        refine Or.inr (Or.inr (Or.inl ⟨ckptDir ckpt, rfl, h3, ?_⟩))
        simpa using h5
    · cases hm : st.datasets_multiplier with
      | none => exact Or.inl ⟨Err.attributeError, rfl⟩
      | some mv =>
        refine Or.inr (Or.inr (Or.inr (Or.inl ⟨ckptDir ckpt, rfl, h3, ?_, ?_⟩)))
        · simpa using h4
        · simpa using h5
    · cases hm : st.datasets_multiplier with
      | none => exact Or.inl ⟨Err.attributeError, rfl⟩
      | some mv =>
        refine Or.inr (Or.inr (Or.inr (Or.inr ⟨ckptDir ckpt, rfl, ?_⟩)))
        simpa using h3

/-! ## Claim theorems -/

/-- C1: if `ckpt_path` is `None`, `use_ema` is true, and the checkpoint
callback at index `nr_checkpoint_callbacks` is not EMA-aware, then
`on_test_end` raises the `ValueError` and performs no side effects at all:
no generated-data file, plot, substructure file, or metrics summary file is
written. -/
theorem c1_ema_mismatch_aborts_without_side_effects (st : CBState)
    (env : EndEnv) (cb : CkptCB)
    (h1 : st.ckpt_path = none) (h2 : st.use_ema = true)
    (h3 : env.checkpoint_callbacks[st.nr_checkpoint_callbacks]? = some cb)
    (h4 : cb.isEMAModelCheckpoint = false) :
    onTestEnd st env = ([], some Err.valueError) := by
  have hck : getCheckpoint st.ckpt_path st.use_ema st.nr_checkpoint_callbacks
      st.use_last_checkpoint env.checkpoint_callbacks =
      Except.error Err.valueError := by
    simp [getCheckpoint, h1, h2, h3, h4]
  unfold onTestEnd
  rw [hck]

/-- Witness for C1: a concrete state with no explicit checkpoint path, EMA
requested, and a plain (non-EMA) checkpoint callback. -/
theorem c1_witness :
    (stEma.ckpt_path = none ∧ stEma.use_ema = true ∧
      envBase.checkpoint_callbacks[stEma.nr_checkpoint_callbacks]? =
        some cbPlain ∧
      cbPlain.isEMAModelCheckpoint = false) ∧
    onTestEnd stEma envBase = ([], some Err.valueError) :=
  ⟨⟨rfl, rfl, rfl, rfl⟩,
    c1_ema_mismatch_aborts_without_side_effects stEma envBase cbPlain
      rfl rfl rfl rfl⟩

/-- C2: with an explicit `ckpt_path`, checkpoint resolution returns exactly
that string, regardless of `use_ema`, `use_last_checkpoint`,
`nr_checkpoint_callbacks` and the callback list. -/
theorem c2_explicit_ckpt_path_verbatim (p : String) (use_ema : Bool)
    (idx : Nat) (use_last : Bool) (cbs : List CkptCB) :
    getCheckpoint (some p) use_ema idx use_last cbs = Except.ok p := rfl

/-- C10: checkpoint resolution raises the EMA-mismatch `ValueError` if and
only if `ckpt_path` is `None`, `use_ema` is true, and the checkpoint
callback at the configured index exists and is not EMA-aware; with
`use_ema` false or an explicit path it never raises this error. -/
theorem c10_valueerror_iff (cp : Option String) (ema : Bool) (idx : Nat)
    (ul : Bool) (cbs : List CkptCB) :
    getCheckpoint cp ema idx ul cbs = Except.error Err.valueError ↔
      cp = none ∧ ema = true ∧
        ∃ cb, cbs[idx]? = some cb ∧ cb.isEMAModelCheckpoint = false := by
  unfold getCheckpoint
  cases cp with
  | some p => simp
  | none =>
    cases hg : cbs[idx]? with
    | none => simp
    | some cb =>
      cases ema with
      | false =>
        cases ul <;> simp
      | true =>
        cases hcb : cb.isEMAModelCheckpoint with
        | false =>
          simp [hcb]
        | true =>
          cases ul <;> simp [hcb]

/-- C3: with dataset `"test"` or `"val"`, a non-negative `num_jet_samples`
is kept as the resolved count with the multiplier disabled (`-1`); a
negative `num_jet_samples` with no `cond_path` resolves to
`abs(num_jet_samples) * len(dataset_split)` with the multiplier equal to
`abs(num_jet_samples)`. -/
theorem c3_sample_count_resolution (st : CBState) (tr : TrainerStart)
    (h : st.dataset = "test" ∨ st.dataset = "val") :
    (0 ≤ st.num_jet_samples →
      (onTestStart st tr).num_jet_samples = st.num_jet_samples ∧
      (onTestStart st tr).datasets_multiplier = some (-1)) ∧
    (st.num_jet_samples < 0 → st.cond_path = none →
      (onTestStart st tr).num_jet_samples =
        ((lenSplit st.dataset tr * st.num_jet_samples.natAbs : Nat) : Int) ∧
      (onTestStart st tr).datasets_multiplier =
        some (st.num_jet_samples.natAbs : Int)) := by
  refine ⟨fun hge => ?_, fun hlt hc => ?_⟩
  · have hn : ¬(st.num_jet_samples < 0) := not_lt.mpr hge
    unfold onTestStart
    by_cases hcp : st.cond_path.isSome <;> simp [hn, hcp]
  · have hcp : st.cond_path.isSome = false := by simp [hc]
    unfold onTestStart lenSplit
    rcases h with hd | hd
    · simp [hlt, hd, hcp]
    · by_cases ht : st.dataset = "test"
      · rw [ht] at hd
        simp at hd
      · simp [hlt, hd, ht, hcp]

/-- Witness for C3: dataset `"test"`, `num_jet_samples = -2`, no
conditioning path, test split of size 3. -/
theorem c3_witness :
    (stStart.dataset = "test" ∨ stStart.dataset = "val") ∧
    ((0 ≤ stStart.num_jet_samples →
      (onTestStart stStart trBase).num_jet_samples = stStart.num_jet_samples ∧
      (onTestStart stStart trBase).datasets_multiplier = some (-1)) ∧
    (stStart.num_jet_samples < 0 → stStart.cond_path = none →
      (onTestStart stStart trBase).num_jet_samples =
        ((lenSplit stStart.dataset trBase *
          stStart.num_jet_samples.natAbs : Nat) : Int) ∧
      (onTestStart stStart trBase).datasets_multiplier =
        some (stStart.num_jet_samples.natAbs : Int))) :=
  ⟨Or.inl rfl, c3_sample_count_resolution stStart trBase (Or.inl rfl)⟩

/-- C4 counterexample: with `cond_path` set, dataset `"test"` of size 3 and
`num_jet_samples = -2`, the multiplier is disabled as claimed, but the
resolved sample count is `3 * 2 = 6`, not `abs(-2) = 2` as the claim
states. -/
theorem c4_counterexample :
    stCond.cond_path.isSome = true ∧
    stCond.num_jet_samples = -2 ∧
    (onTestStart stCond trBase).datasets_multiplier = some (-1) ∧
    (onTestStart stCond trBase).num_jet_samples = 6 ∧
    (onTestStart stCond trBase).num_jet_samples ≠
      (stCond.num_jet_samples.natAbs : Int) := by
  decide

/-- C4 amended: whenever `cond_path` is set the multiplier is disabled
(sentinel `-1`) regardless of the sign of `num_jet_samples`, but a negative
`num_jet_samples` is still resolved to `abs(num_jet_samples) * len(split)`:
the conditioning path does not change the resolved sample count. -/
theorem c4_amended (st : CBState) (tr : TrainerStart)
    (hc : st.cond_path.isSome = true) :
    (onTestStart st tr).datasets_multiplier = some (-1) ∧
    (st.num_jet_samples < 0 → st.dataset = "test" ∨ st.dataset = "val" →
      (onTestStart st tr).num_jet_samples =
        ((lenSplit st.dataset tr * st.num_jet_samples.natAbs : Nat) : Int)) := by
  constructor
  · unfold onTestStart
    by_cases hn : st.num_jet_samples < 0 <;> simp [hn, hc]
  · intro hlt h
    unfold onTestStart lenSplit
    rcases h with hd | hd
    · simp [hlt, hd, hc]
    · by_cases ht : st.dataset = "test"
      · rw [ht] at hd
        simp at hd
      · simp [hlt, hd, ht, hc]

/-- Witness for C4 amended: the same concrete conditioning configuration. -/
theorem c4_witness :
    stCond.cond_path.isSome = true ∧
    ((onTestStart stCond trBase).datasets_multiplier = some (-1) ∧
    (stCond.num_jet_samples < 0 →
      stCond.dataset = "test" ∨ stCond.dataset = "val" →
      (onTestStart stCond trBase).num_jet_samples =
        ((lenSplit stCond.dataset trBase *
          stCond.num_jet_samples.natAbs : Nat) : Int))) :=
  ⟨rfl, c4_amended stCond trBase rfl⟩

/-- C5 counterexample: with maximum jet size 3 and a jet of multiplicity 0
(which is at most the jet size), the clipped index is `-1`, numpy indexing
selects the last row of `np.tri(3)`, and the mask row has 3 active
particles, not 0. -/
theorem c5_counterexample :
    (0 : Int) ≤ (3 : Nat) ∧
    condMasks 3 [0] = some [[true, true, true]] ∧
    (maskRow 3 0).map activeCount = some 3 ∧
    (maskRow 3 0).map activeCount ≠ some (Int.toNat 0) := by
  decide

/-- C5 amended: for every jet whose multiplicity is between 1 and the
maximum jet size, the mask row built from the (clipped) multiplicities has
exactly that many active particles; multiplicities above the maximum jet
size are first clipped to it (their mask row equals the one of a jet of
maximal multiplicity).  A multiplicity of 0, however, selects the last
triangle row through numpy negative indexing and yields a fully active
row. -/
theorem c5_amended (jetSize : Nat) (mult : Int)
    (h1 : 1 ≤ mult) (h2 : mult ≤ (jetSize : Int)) :
    (maskRow jetSize mult).map activeCount = some mult.toNat ∧
    (∀ m : Int, (jetSize : Int) < m →
      maskRow jetSize m = maskRow jetSize (jetSize : Int)) := by
  constructor
  · unfold maskRow clipMult npRowIndex
    rw [if_pos h2]
    have h0 : (0 : Int) ≤ mult - 1 := by omega
    rw [if_pos h0]
    have hlt : mult - 1 < (jetSize : Int) := by omega
    rw [if_pos hlt]
    show some (activeCount (triRow jetSize (mult - 1).toNat)) = some mult.toNat
    rw [activeCount_triRow]
    simp only [Option.some.injEq]
    omega
  · intro m hm
    unfold maskRow clipMult
    rw [if_neg (by omega), if_pos (le_refl _)]

/-- Witness for C5 amended: jet size 3, multiplicity 2. -/
theorem c5_witness :
    ((1 : Int) ≤ 2 ∧ (2 : Int) ≤ ((3 : Nat) : Int)) ∧
    ((maskRow 3 2).map activeCount = some (Int.toNat 2) ∧
    (∀ m : Int, ((3 : Nat) : Int) < m →
      maskRow 3 m = maskRow 3 ((3 : Nat) : Int))) :=
  ⟨⟨by decide, by decide⟩, c5_amended 3 2 (by decide) (by decide)⟩

/-- Projection lemma: the dataset attribute is untouched by the start
hook. -/
theorem onTestStart_dataset (st : CBState) (tr : TrainerStart) :
    (onTestStart st tr).dataset = st.dataset := by
  unfold onTestStart
  by_cases hn : st.num_jet_samples < 0 <;>
    by_cases hc : st.cond_path.isSome <;> simp [hn, hc]

/-- Projection lemma: the resolved sample count of the start hook. -/
theorem onTestStart_num (st : CBState) (tr : TrainerStart) :
    (onTestStart st tr).num_jet_samples =
      if st.num_jet_samples < 0 then
        if st.dataset = "test" then
          ((tr.lenTest * st.num_jet_samples.natAbs : Nat) : Int)
        else if st.dataset = "val" then
          ((tr.lenVal * st.num_jet_samples.natAbs : Nat) : Int)
        else st.num_jet_samples
      else st.num_jet_samples := by
  unfold onTestStart
  by_cases hn : st.num_jet_samples < 0 <;>
    by_cases hc : st.cond_path.isSome <;> simp [hn, hc]

/-- C9 counterexample: the configured `num_jet_samples` and the resolved
multiplier ARE persisted on the callback object: after one start-hook run
with `num_jet_samples = -2` on a test split of size 3, the stored count is 6
(not the configured -2) and the stored multiplier is 2; a second run then
resolves the multiplier to the disabled sentinel -1 instead of 2, so the
object does carry cross-invocation state. -/
theorem c9_counterexample :
    (onTestStart stStart trBase).num_jet_samples ≠ stStart.num_jet_samples ∧
    (onTestStart stStart trBase).datasets_multiplier ≠
      stStart.datasets_multiplier ∧
    (onTestStart stStart trBase).datasets_multiplier = some 2 ∧
    (onTestStart (onTestStart stStart trBase) trBase).datasets_multiplier =
      some (-1) := by
  decide

/-- C9 amended: `num_jet_samples` and `datasets_multiplier` are persisted
(mutated) on the callback object, but the resolved sample count is
idempotent: a second invocation of the start hook with the same trainer
resolves the same sample count as the first. -/
theorem c9_amended (st : CBState) (tr : TrainerStart) :
    (onTestStart (onTestStart st tr) tr).num_jet_samples =
      (onTestStart st tr).num_jet_samples := by
  simp only [onTestStart_num, onTestStart_dataset]
  by_cases hn : st.num_jet_samples < 0
  · by_cases ht : st.dataset = "test"
    · simp [hn, ht]
      intro hlt0
      exact absurd hlt0
        (not_lt.mpr (mul_nonneg (Int.natCast_nonneg _) (abs_nonneg _)))
    · by_cases hv : st.dataset = "val"
      · simp [hn, ht, hv]
        intro hlt0
        exact absurd hlt0
          (not_lt.mpr (mul_nonneg (Int.natCast_nonneg _) (abs_nonneg _)))
      · simp [hn, ht, hv]
  · simp [hn]

/-- C6: with `evaluate_substructure = False`, `on_test_end` creates no
substructure artifact (neither of the two intermediate keyed files, nor the
two substructure plots), and the metrics mapping written to the summary file
is exactly the coerced Wasserstein mapping: same keys, none of the six
substructure keys added. -/
theorem c6_no_substructure_without_flag (st : CBState) (env : EndEnv)
    (h : st.evaluate_substructure = false) :
    (∀ e ∈ (onTestEnd st env).1, e.isSubstructureOutput = false) ∧
    (∀ p m, Effect.writeYaml p m ∈ (onTestEnd st env).1 →
      m = coerceMetrics env.wMetrics ∧
      m.map Prod.fst = env.wMetrics.map Prod.fst) := by
  rcases onTestEnd_shape st env with
    ⟨err, heq⟩ | ⟨dir, heq, hs, _⟩ | ⟨dir, heq, hs, _⟩ | ⟨dir, heq, hs, _, _⟩ |
      ⟨dir, heq, _⟩
  · rw [heq]
    exact ⟨fun e he => absurd he (List.not_mem_nil e),
           fun p m hm => absurd hm (List.not_mem_nil _)⟩
  · rw [hs] at h
    simp at h
  · rw [hs] at h
    simp at h
  · rw [hs] at h
    simp at h
  · rw [heq]
    refine ⟨noSubTrace_no_substructure st env dir, fun p m hm => ?_⟩
    have hme := writeYaml_mem_noSubTrace st env dir p m hm
    exact ⟨hme, by rw [hme, coerceMetrics_keys]⟩

/-- Witness for C6: a concrete run with the substructure branch disabled. -/
theorem c6_witness :
    stBase.evaluate_substructure = false ∧
    ((∀ e ∈ (onTestEnd stBase envBase).1, e.isSubstructureOutput = false) ∧
    (∀ p m, Effect.writeYaml p m ∈ (onTestEnd stBase envBase).1 →
      m = coerceMetrics envBase.wMetrics ∧
      m.map Prod.fst = envBase.wMetrics.map Prod.fst)) :=
  ⟨rfl, c6_no_substructure_without_flag stBase envBase rfl⟩

/-- C7 counterexample: the coercion before serialization is `float(v)`,
which does not make values finite: a NaN Wasserstein metric is written to
the summary file as a (non-finite) NaN float. -/
theorem c7_counterexample :
    Effect.writeYaml "logs/run/final_eval_metrics.yml"
        [("w1b_mean", { tag := PyNumTag.pyFloat, val := NumVal.nan })] ∈
      (onTestEnd stBase envNan).1 ∧
    MVal.isFiniteVal { tag := PyNumTag.pyFloat, val := NumVal.nan } = false := by
  decide

/-- C7 amended: every value in the serialized mapping is coerced to a plain
float (the numeric value is preserved, finiteness is NOT enforced), and if
the incoming Wasserstein mapping has unique keys the serialized mapping is
flat string-to-float with unique keys. -/
theorem c7_float_coercion (st : CBState) (env : EndEnv)
    (h : (env.wMetrics.map Prod.fst).Nodup) :
    ∀ p m, Effect.writeYaml p m ∈ (onTestEnd st env).1 →
      (∀ q ∈ m, q.2.tag = PyNumTag.pyFloat) ∧ (m.map Prod.fst).Nodup := by
  intro p m hm
  rcases onTestEnd_shape st env with
    ⟨err, heq⟩ | ⟨dir, heq, _, _⟩ | ⟨dir, heq, _, _⟩ | ⟨dir, heq, _, _, _⟩ |
      ⟨dir, heq, _⟩
  · rw [heq] at hm
    exact absurd hm (List.not_mem_nil _)
  · rw [heq] at hm
    simp [preEffects] at hm
  · rw [heq] at hm
    simp [preEffects] at hm
  · rw [heq] at hm
    have hme := writeYaml_mem_subTrace st env dir p m hm
    subst hme
    refine ⟨mem_coerceMetrics_tag _, ?_⟩
    rw [coerceMetrics_keys]
    exact subMetrics_keys_nodup env h
  · rw [heq] at hm
    have hme := writeYaml_mem_noSubTrace st env dir p m hm
    subst hme
    refine ⟨mem_coerceMetrics_tag _, ?_⟩
    rw [coerceMetrics_keys]
    exact h

/-- Witness for C7 amended: a concrete run with a single-key Wasserstein
mapping. -/
theorem c7_witness :
    (envBase.wMetrics.map Prod.fst).Nodup ∧
    (∀ p m, Effect.writeYaml p m ∈ (onTestEnd stBase envBase).1 →
      (∀ q ∈ m, q.2.tag = PyNumTag.pyFloat) ∧ (m.map Prod.fst).Nodup) :=
  ⟨by decide, c7_float_coercion stBase envBase (by decide)⟩

/-- C8: the metrics summary file is written only after the whole
end-of-evaluation sequence completes without error: if the substructure
branch is enabled and one of its dump calls raises, no summary file is
written (the bulk Wasserstein metrics are never flushed); in general the
yaml write appears in a trace only when the run raised no exception. -/
theorem c8_yaml_only_after_success (st : CBState) (env : EndEnv)
    (h1 : st.evaluate_substructure = true)
    (h2 : env.dumpOk1 = false ∨ env.dumpOk2 = false) :
    (∀ p m, Effect.writeYaml p m ∉ (onTestEnd st env).1) ∧
    (∀ st2 env2 p m, Effect.writeYaml p m ∈ (onTestEnd st2 env2).1 →
      (onTestEnd st2 env2).2 = none) := by
  constructor
  · intro p m hm
    rcases onTestEnd_shape st env with
      ⟨err, heq⟩ | ⟨dir, heq, _, _⟩ | ⟨dir, heq, _, _⟩ | ⟨dir, heq, _, hd1, hd2⟩ |
        ⟨dir, heq, hs⟩
    · rw [heq] at hm
      exact absurd hm (List.not_mem_nil _)
    · rw [heq] at hm
      simp [preEffects] at hm
    · rw [heq] at hm
      simp [preEffects] at hm
    · rcases h2 with h2 | h2
      · rw [hd1] at h2
        simp at h2
      · rw [hd2] at h2
        simp at h2
    · rw [hs] at h1
      simp at h1
  · intro st2 env2 p m hm
    rcases onTestEnd_shape st2 env2 with
      ⟨err, heq⟩ | ⟨dir, heq, _, _⟩ | ⟨dir, heq, _, _⟩ | ⟨dir, heq, _, _, _⟩ |
        ⟨dir, heq, _⟩
    · rw [heq] at hm
      exact absurd hm (List.not_mem_nil _)
    · rw [heq] at hm
      simp [preEffects] at hm
    · rw [heq] at hm
      simp [preEffects] at hm
    · rw [heq]
    · rw [heq]

/-- Witness for C8: a concrete run with the substructure branch enabled
whose first dump call raises. -/
theorem c8_witness :
    (stSub.evaluate_substructure = true ∧
      (envDumpFail.dumpOk1 = false ∨ envDumpFail.dumpOk2 = false)) ∧
    ((∀ p m, Effect.writeYaml p m ∉ (onTestEnd stSub envDumpFail).1) ∧
    (∀ st2 env2 p m, Effect.writeYaml p m ∈ (onTestEnd st2 env2).1 →
      (onTestEnd st2 env2).2 = none)) :=
  ⟨⟨rfl, Or.inl rfl⟩, c8_yaml_only_after_success stSub envDumpFail rfl (Or.inl rfl)⟩
